import Mathlib

set_option maxRecDepth 4000

/-!
Verification development for the Steno real-time transcription core
(`src/src-tauri/src`).  The Rust sources are shallowly embedded:

* `f32` values are modelled as `ℚ` (all arithmetic appearing in the claims
  below is exact on the rationals: sums, products, divisions by nonzero
  denominators, comparisons); where `f32` produces `NaN` the embedding uses
  `Option ℚ` with `none` for `NaN` (see `QF` in the VAD section).
* `u64` / `u32` / `usize` are modelled as `ℕ`; guarded subtractions in the
  source (`if a > b { a - b } else { b - a }`) are translated literally, the
  unguarded `u64` subtraction in `cleanup_old_pending` is modelled with an
  explicit wrap modulo `2 ^ 64`, and the unchecked `usize` subtraction in
  `calculate_zero_crossing_rate` is modelled as a failure (`Except`), which
  is the Rust debug-profile behaviour.
* Rust `HashMap`s (`pending_results`, `speaker_profiles`) are modelled as
  association lists in insertion order; the Rust iteration order is
  unspecified, and every statement proved below is either independent of
  that order or is a concrete execution on at most one entry.
* `Instant::now()` / `SystemTime::now()` are modelled by threading an
  explicit `now : ℕ` (milliseconds) argument through the functions that
  call them; all calls inside one function body read the same instant.
* Rust `String::len` is byte length, modelled by `String.utf8ByteSize`;
  `str::split_whitespace` is modelled by splitting on `Char.isWhitespace`
  and discarding empty pieces.
-/

namespace Steno

/-- Decidable equality for `Except`, used to state concrete executions
of the fallible embedded functions. -/
instance {ε α : Type} [DecidableEq ε] [DecidableEq α] :
    DecidableEq (Except ε α) := fun a b =>
  match a, b with
  | .error x, .error y =>
    if h : x = y then isTrue (congrArg Except.error h)
    else isFalse (fun hc => h ((Except.error.injEq _ _).mp hc))
  | .ok x, .ok y =>
    if h : x = y then isTrue (congrArg Except.ok h)
    else isFalse (fun hc => h ((Except.ok.injEq _ _).mp hc))
  | .error _, .ok _ => isFalse (fun hc => Except.noConfusion hc)
  | .ok _, .error _ => isFalse (fun hc => Except.noConfusion hc)

/-- `TranscriptResult` from `layered_processor.rs` (lines 12-21). -/
structure TranscriptResult where
  text : String
  confidence : ℚ
  is_temporary : Bool
  speaker : Option String
  timestamp : ℕ
  processing_time_ms : ℕ
  segment_id : String
deriving Repr, DecidableEq

/-- `SegmentSource` from `result_manager.rs` (lines 22-28). -/
inductive SegmentSource where
  | fastProcessing
  | accurateProcessing
  | merged
  | userCorrected
deriving Repr, DecidableEq

/-- `TextCorrection.reason` from `result_manager.rs` (lines 38-45). -/
inductive CorrectionReason where
  | deduplicationMerge
  | contextualCorrection
  | grammarFix
  | speakerConsistency
  | userEdit
deriving Repr, DecidableEq

/-- `TextCorrection` from `result_manager.rs` (lines 30-36). -/
structure TextCorrection where
  original : String
  corrected : String
  reason : CorrectionReason
  confidence : ℚ
deriving Repr, DecidableEq

/-- `ManagedTranscriptSegment` from `result_manager.rs` (lines 8-20). -/
structure ManagedTranscriptSegment where
  id : String
  text : String
  confidence : ℚ
  speaker : Option String
  timestamp : ℕ
  start_time : ℕ
  end_time : ℕ
  is_final : Bool
  source : SegmentSource
  corrections : List TextCorrection
deriving Repr, DecidableEq

/-- Helper for `splitWords`: walk the character list, accumulating the
current word (reversed) and emitting words at whitespace boundaries. -/
def wordsAux : List Char → List Char → List String
  | [], cur => if cur = [] then [] else [String.mk cur.reverse]
  | c :: cs, cur =>
    if c.isWhitespace then
      if cur = [] then wordsAux cs []
      else String.mk cur.reverse :: wordsAux cs []
    else wordsAux cs (c :: cur)

/-- Rust `str::split_whitespace`: split on whitespace, dropping empty
pieces (`result_manager.rs` line 132 and elsewhere). -/
def splitWords (s : String) : List String :=
  wordsAux s.data []

/-- Rust `str::trim`, character-level model. -/
def trimStr (s : String) : String :=
  String.mk
    (((s.data.dropWhile Char.isWhitespace).reverse.dropWhile
      Char.isWhitespace).reverse)

/-- Rust `str::starts_with`, character-level model. -/
def strStartsWith (s p : String) : Bool :=
  p.data.isPrefixOf s.data

namespace DeduplicationEngine

/-- The engine's thresholds from `DeduplicationEngine::new`
(`result_manager.rs` lines 54-59): `similarity_threshold = 0.8`,
`time_window = 2000 ms`. -/
def similarity_threshold : ℚ := 8 / 10

def time_window_ms : ℕ := 2000

/-- `DeduplicationEngine::calculate_text_similarity`
(`result_manager.rs` lines 127-155): equal texts short-circuit to 1,
both-empty word lists give 1, exactly one empty gives 0, otherwise the
word-level Jaccard ratio on the deduplicated word sets. -/
def calculate_text_similarity (text1 text2 : String) : ℚ :=
  if text1 = text2 then 1 else
  let words1 := splitWords text1
  let words2 := splitWords text2
  if words1 = [] ∧ words2 = [] then 1 else
  if words1 = [] ∨ words2 = [] then 0 else
  let set1 := words1.dedup
  let set2 := words2.dedup
  let inter := (set1.filter (fun w => w ∈ set2)).length
  let uni := (set1 ∪ set2).length
  if uni = 0 then 0 else (inter : ℚ) / (uni : ℚ)

/-- The guarded absolute timestamp difference computed in
`is_duplicate` (`result_manager.rs` lines 112-116). -/
def time_diff (a b : TranscriptResult) : ℕ :=
  if a.timestamp > b.timestamp then a.timestamp - b.timestamp
  else b.timestamp - a.timestamp

/-- `DeduplicationEngine::is_duplicate` (`result_manager.rs`
lines 110-125). -/
def is_duplicate (a b : TranscriptResult) : Bool :=
  if time_diff a b > time_window_ms then false
  else calculate_text_similarity a.text b.text ≥ similarity_threshold

/-- `DeduplicationEngine::merge_group` (`result_manager.rs`
lines 157-184), on a nonempty group given as head and tail.  Rust
`Iterator::max_by` / `max_by_key` return the last maximal element and
`Iterator::min` returns the first minimal one; both folds below do the
same. -/
def merge_group (g0 : TranscriptResult) (gs : List TranscriptResult) :
    TranscriptResult :=
  let group := g0 :: gs
  let best := gs.foldl
    (fun acc r => if acc.confidence ≤ r.confidence then r else acc) g0
  let longest_text := (gs.foldl
    (fun acc r =>
      if acc.text.utf8ByteSize ≤ r.text.utf8ByteSize then r else acc) g0).text
  let avg_confidence :=
    (group.map TranscriptResult.confidence).sum / (group.length : ℚ)
  let min_time := gs.foldl
    (fun acc r => if r.processing_time_ms < acc then r.processing_time_ms
      else acc) g0.processing_time_ms
  { text := longest_text
    confidence := avg_confidence
    is_temporary := false
    speaker := best.speaker
    timestamp := best.timestamp
    processing_time_ms := min_time
    segment_id := "merged_" ++ best.segment_id }

/-- The greedy grouping loop of `merge_similar_results`
(`result_manager.rs` lines 80-107): the first unused result collects
every later unused result that `is_duplicate` with it; a singleton group
is pushed unchanged, a larger group is pushed as `merge_group`.  The
Rust loop shrinks the set of unused results, which is not a structural
recursion; it is translated with an explicit fuel argument (always
called with fuel = list length, which suffices since the unused suffix
shrinks at every step; `merge_loop_cons` recovers the intended
unfolding). -/
def merge_loop_fuel : ℕ → List TranscriptResult → List TranscriptResult
  | _, [] => []
  | 0, l => l
  | fuel + 1, r :: rest =>
    let dups := rest.filter (fun x => is_duplicate r x)
    let nondups := rest.filter (fun x => !(is_duplicate r x))
    (if dups = [] then r else merge_group r dups) ::
      merge_loop_fuel fuel nondups

def merge_loop (l : List TranscriptResult) : List TranscriptResult :=
  merge_loop_fuel l.length l

lemma merge_loop_fuel_irrel :
    ∀ (f₁ f₂ : ℕ) (l : List TranscriptResult), l.length ≤ f₁ →
      l.length ≤ f₂ → merge_loop_fuel f₁ l = merge_loop_fuel f₂ l := by
  intro f₁
  induction f₁ with
  | zero =>
    intro f₂ l h₁ _
    rw [List.length_eq_zero.mp (Nat.le_zero.mp h₁)]
    cases f₂ <;> rfl
  | succ f ih =>
    intro f₂ l h₁ h₂
    cases l with
    | nil => cases f₂ <;> rfl
    | cons r rest =>
      cases f₂ with
      | zero => simp at h₂
      | succ g =>
        simp only [merge_loop_fuel]
        congr 1
        exact ih g _
          (le_trans (List.length_filter_le _ _) (Nat.lt_succ_iff.mp h₁))
          (le_trans (List.length_filter_le _ _) (Nat.lt_succ_iff.mp h₂))

/-- One unfolding step of the grouping loop. -/
lemma merge_loop_cons (r : TranscriptResult) (rest : List TranscriptResult) :
    merge_loop (r :: rest) =
      (if rest.filter (fun x => is_duplicate r x) = [] then r
       else merge_group r (rest.filter (fun x => is_duplicate r x))) ::
      merge_loop (rest.filter (fun x => !(is_duplicate r x))) := by
  show merge_loop_fuel (rest.length + 1) (r :: rest) = _
  simp only [merge_loop_fuel]
  congr 1
  exact merge_loop_fuel_irrel _ _ _ (List.length_filter_le _ _) le_rfl

/-- `DeduplicationEngine::merge_similar_results` (`result_manager.rs`
lines 75-108), including the early return for length ≤ 1. -/
def merge_similar_results (results : List TranscriptResult) :
    List TranscriptResult :=
  if results.length ≤ 1 then results else merge_loop results

end DeduplicationEngine

/-- Word-level Jaccard similarity of two texts, modelled from the spec's
words in §4.4 (ratio of the intersection to the union of the two word
sets); used only to compare against `calculate_text_similarity`. -/
def wordJaccard (t1 t2 : String) : ℚ :=
  let s1 := (splitWords t1).dedup
  let s2 := (splitWords t2).dedup
  ((s1.filter (fun w => w ∈ s2)).length : ℚ) / ((s1 ∪ s2).length : ℚ)

namespace DeduplicationEngine

lemma union_eq_right {α : Type} [DecidableEq α] (l₁ l₂ : List α)
    (h : ∀ a ∈ l₁, a ∈ l₂) : l₁ ∪ l₂ = l₂ := by
  induction l₁ with
  | nil => rfl
  | cons a l₁ ih =>
    rw [List.cons_union, ih (fun x hx => h x (List.mem_cons_of_mem a hx)),
      List.insert_of_mem (h a (List.mem_cons_self a l₁))]

/-- On equal texts the code's similarity shortcut agrees with the
word-level Jaccard ratio, provided there is at least one word. -/
lemma wordJaccard_self (t : String) (h : splitWords t ≠ []) :
    wordJaccard t t = 1 := by
  unfold wordJaccard
  have hfil : ((splitWords t).dedup.filter
      (fun w => w ∈ (splitWords t).dedup)) = (splitWords t).dedup := by
    rw [List.filter_eq_self]
    intro a ha
    simpa using ha
  have huni : (splitWords t).dedup ∪ (splitWords t).dedup
      = (splitWords t).dedup := union_eq_right _ _ (fun a ha => ha)
  have hne : (splitWords t).dedup ≠ [] := by
    intro hcon
    exact h ((List.dedup_eq_nil _).mp hcon)
  have hlen : ((splitWords t).dedup.length : ℚ) ≠ 0 := by
    exact_mod_cast List.length_pos.mpr hne |>.ne'
  simp only [hfil, huni]
  exact div_self hlen

/-- The code's `calculate_text_similarity` computes exactly the
word-level Jaccard ratio whenever both texts contain at least one
word. -/
lemma calculate_text_similarity_eq_jaccard (t1 t2 : String)
    (h1 : splitWords t1 ≠ []) (h2 : splitWords t2 ≠ []) :
    calculate_text_similarity t1 t2 = wordJaccard t1 t2 := by
  unfold calculate_text_similarity
  by_cases heq : t1 = t2
  · subst heq
    rw [if_pos rfl, wordJaccard_self t1 h1]
  · rw [if_neg heq]
    rw [if_neg (by rintro ⟨hc, -⟩; exact h1 hc)]
    rw [if_neg (by rintro (hc | hc); exacts [h1 hc, h2 hc])]
    have hne : (splitWords t1).dedup ≠ [] := by
      intro hcon
      exact h1 ((List.dedup_eq_nil _).mp hcon)
    have huni : ((splitWords t1).dedup ∪ (splitWords t2).dedup).length ≠ 0 := by
      intro hcon
      rcases List.eq_nil_of_length_eq_zero hcon with hnil
      have : (splitWords t1).dedup ⊆
          ((splitWords t1).dedup ∪ (splitWords t2).dedup) :=
        fun a ha => List.mem_union_left ha _

      rcases List.exists_mem_of_ne_nil _ hne with ⟨a, ha⟩
      have := this ha
      simp [hnil] at this
    rw [if_neg huni]
    rfl

/-- Every result is a duplicate of itself: the time difference is 0 and
the equal-text shortcut yields similarity 1. -/
lemma is_duplicate_self (r : TranscriptResult) : is_duplicate r r = true := by
  simp only [is_duplicate, time_diff, calculate_text_similarity,
    time_window_ms, similarity_threshold, gt_iff_lt, lt_self_iff_false,
    if_false, Nat.sub_self, if_pos rfl]
  norm_num

/-- Merging the two-element group consisting of a result and its own copy
keeps text, confidence, speaker, timestamp and latency, retags the result
as final and prefixes the segment id. -/
lemma merge_group_self (r : TranscriptResult) :
    merge_group r [r] = { r with is_temporary := false,
                                 segment_id := "merged_" ++ r.segment_id } := by
  cases r with
  | mk text confidence is_temporary speaker timestamp processing pid =>
    simp only [merge_group, List.foldl_cons, List.foldl_nil, le_refl,
      if_true, ite_self, List.map_cons, List.map_nil, List.sum_cons,
      List.sum_nil, List.length_cons, List.length_nil, lt_self_iff_false,
      if_false]
    refine TranscriptResult.mk.injEq .. |>.mpr ?_
    refine ⟨rfl, ?_, rfl, rfl, rfl, rfl, rfl⟩
    push_cast
    ring

lemma merge_loop_self_merge (M : List TranscriptResult)
    (h : M.Pairwise (fun a b => is_duplicate a b = false)) :
    merge_loop (M ++ M) = M.map
      (fun r => { r with is_temporary := false,
                         segment_id := "merged_" ++ r.segment_id }) := by
  induction M with
  | nil => rfl
  | cons r M' ih =>
    obtain ⟨hr, hM'⟩ := List.pairwise_cons.mp h
    have hstep : (r :: M') ++ r :: M' = r :: (M' ++ r :: M') := rfl
    rw [hstep, merge_loop_cons]
    have hfilM : M'.filter (fun x => is_duplicate r x) = [] :=
      List.filter_eq_nil_iff.mpr (fun x hx => by simp [hr x hx])
    have hfilM' : M'.filter (fun x => !(is_duplicate r x)) = M' :=
      List.filter_eq_self.mpr (fun x hx => by simp [hr x hx])
    have hdup : (M' ++ r :: M').filter (fun x => is_duplicate r x) = [r] := by
      rw [List.filter_append, hfilM, List.filter_cons_of_pos
        (by simp [is_duplicate_self r]), hfilM]
      rfl
    have hnon : (M' ++ r :: M').filter (fun x => !(is_duplicate r x))
        = M' ++ M' := by
      rw [List.filter_append, hfilM', List.filter_cons_of_neg
        (by simp [is_duplicate_self r]), hfilM']
    rw [hdup, hnon, ih hM', if_neg (by simp), merge_group_self, List.map_cons]

def c4a : TranscriptResult :=
  ⟨"hello world", 9/10, false, none, 0, 10, "a"⟩

def c4b : TranscriptResult :=
  ⟨"hello world", 8/10, false, none, 2000, 12, "b"⟩

end DeduplicationEngine

/-- C4 counterexample: two results with identical text whose timestamps
differ by exactly 2000 ms are classified as duplicates by the code
(`is_duplicate` rejects only differences strictly greater than the 2 s
window), although the claim's strict "< 2 s" predicts they are not. -/
theorem c4_counterexample_boundary :
    DeduplicationEngine.is_duplicate DeduplicationEngine.c4a
        DeduplicationEngine.c4b = true ∧
    ¬ (DeduplicationEngine.time_diff DeduplicationEngine.c4a
        DeduplicationEngine.c4b < 2000) := by
  constructor
  · with_unfolding_all decide
  · with_unfolding_all decide

/-- C4 (amended): for results whose texts both contain at least one word,
the engine classifies them as duplicates iff their timestamps differ by
at most 2000 ms (not strictly less) and the word-level Jaccard similarity
of their texts is at least 0.8. -/
theorem c4_is_duplicate_iff (a b : TranscriptResult)
    (h1 : splitWords a.text ≠ []) (h2 : splitWords b.text ≠ []) :
    DeduplicationEngine.is_duplicate a b = true ↔
      DeduplicationEngine.time_diff a b ≤ 2000 ∧
        wordJaccard a.text b.text ≥ 8/10 := by
  unfold DeduplicationEngine.is_duplicate
  rw [DeduplicationEngine.calculate_text_similarity_eq_jaccard a.text b.text
    h1 h2]
  by_cases hd : DeduplicationEngine.time_diff a b >
      DeduplicationEngine.time_window_ms
  · rw [if_pos hd]
    simp only [Bool.false_eq_true, false_iff, not_and]
    intro hle
    exact absurd hd (by simp [DeduplicationEngine.time_window_ms]; omega)
  · rw [if_neg hd]
    have hle : DeduplicationEngine.time_diff a b ≤ 2000 := by
      simpa [DeduplicationEngine.time_window_ms, Nat.not_lt] using hd
    simp only [decide_eq_true_eq, ge_iff_le]
    exact (and_iff_right hle).symm

/-- C4 witness: the amended criterion applied to the boundary pair. -/
theorem c4_is_duplicate_iff_witness :
    DeduplicationEngine.is_duplicate DeduplicationEngine.c4a
      DeduplicationEngine.c4b = true :=
  (c4_is_duplicate_iff DeduplicationEngine.c4a DeduplicationEngine.c4b
      (by with_unfolding_all decide) (by with_unfolding_all decide)).mpr
    ⟨by with_unfolding_all decide, by with_unfolding_all decide⟩

def c5r : TranscriptResult :=
  ⟨"hi there", 9/10, false, none, 0, 10, "s0"⟩

/-- C5 counterexample: for the already-merged set `[c5r]` (merging a
singleton returns it unchanged), merging the set with itself does not
return the same committed segment: the merged result's segment id gains a
"merged_" prefix, so segment identity is not preserved. -/
theorem c5_counterexample_identity :
    DeduplicationEngine.merge_similar_results ([c5r] ++ [c5r]) ≠
      DeduplicationEngine.merge_similar_results [c5r] := by
  with_unfolding_all decide

/-- C5 (amended): merging an already-merged (pairwise non-duplicate) set
with itself is idempotent up to segment identity: each result keeps its
text, confidence, speaker, timestamp and processing latency, but is
retagged non-temporary and its segment id gains a "merged_" prefix. -/
theorem c5_self_merge (M : List TranscriptResult)
    (h : M.Pairwise (fun a b => DeduplicationEngine.is_duplicate a b = false)) :
    DeduplicationEngine.merge_similar_results (M ++ M) =
      M.map (fun r => { r with is_temporary := false,
                               segment_id := "merged_" ++ r.segment_id }) := by
  cases M with
  | nil => rfl
  | cons r M' =>
    unfold DeduplicationEngine.merge_similar_results
    rw [if_neg (by simp only [List.length_append, List.length_cons]; omega)]
    exact DeduplicationEngine.merge_loop_self_merge _ h

/-- C5 witness: the amended self-merge applied to the singleton set. -/
theorem c5_self_merge_witness :
    DeduplicationEngine.merge_similar_results ([c5r] ++ [c5r]) =
      [{ c5r with is_temporary := false, segment_id := "merged_s0" }] :=
  c5_self_merge [c5r] (List.pairwise_singleton _ _)

/-- Wrapping `u64` addition (`timestamp + processing_time_ms` in
`add_segment`). -/
def u64add (a b : ℕ) : ℕ := (a + b) % 2 ^ 64

/-- Wrapping `u64` subtraction (the unguarded `now - max_age` in
`cleanup_old_pending`). -/
def u64subWrap (a b : ℕ) : ℕ := (((a : ℤ) - (b : ℤ)) % (2 ^ 64 : ℤ)).toNat

/-- `SegmentOrganizer` state from `result_manager.rs` (lines 188-192);
the `VecDeque` is a list with its front at the head. -/
structure SegmentOrganizer where
  segments : List ManagedTranscriptSegment
  max_segments : ℕ
deriving Repr, DecidableEq

namespace SegmentOrganizer

/-- `auto_paragraph_threshold` fixed at 3 s by `SegmentOrganizer::new`
(`result_manager.rs` line 199). -/
def auto_paragraph_threshold_ms : ℕ := 3000

def mkNew (max_segments : ℕ) : SegmentOrganizer := ⟨[], max_segments⟩

/-- `SegmentOrganizer::should_merge_with_previous` (`result_manager.rs`
lines 316-335). -/
def should_merge_with_previous
    (new_segment last_segment : ManagedTranscriptSegment) : Bool :=
  let time_gap :=
    if new_segment.start_time > last_segment.end_time then
      new_segment.start_time - last_segment.end_time
    else 0
  let same_speaker :=
    match new_segment.speaker, last_segment.speaker with
    | some a, some b => a = b
    | none, none => true
    | _, _ => false
  decide (time_gap < auto_paragraph_threshold_ms) && same_speaker &&
    !last_segment.is_final

/-- The in-place merge block of `add_segment` (`result_manager.rs`
lines 229-258): length-weighted confidence, text concatenation, end-time
extension, correction union, source retagged `Merged`.  Text lengths are
Rust byte lengths. -/
def merge_into_last (last_segment segment : ManagedTranscriptSegment) :
    ManagedTranscriptSegment :=
  let target_len : ℚ := (last_segment.text.utf8ByteSize : ℚ)
  let source_len : ℚ := (segment.text.utf8ByteSize : ℚ)
  let text :=
    if last_segment.text ≠ "" ∧ segment.text ≠ "" then
      last_segment.text ++ " " ++ segment.text
    else if last_segment.text = "" then segment.text
    else last_segment.text
  let total_len := target_len + source_len
  let confidence :=
    if total_len > 0 then
      (last_segment.confidence * target_len + segment.confidence * source_len)
        / total_len
    else last_segment.confidence
  { last_segment with
      text := text
      end_time := segment.end_time
      confidence := confidence
      corrections := last_segment.corrections ++ segment.corrections
      source := SegmentSource.merged }

/-- `SegmentOrganizer::add_segment` (`result_manager.rs` lines 203-268):
build the managed segment from the result, merge it into the previous
segment when `should_merge_with_previous` holds, otherwise append it
(evicting the oldest segment at capacity); returns the updated organizer
and the id of the touched segment. -/
def add_segment (org : SegmentOrganizer) (result : TranscriptResult)
    (source : SegmentSource) : SegmentOrganizer × String :=
  let segment_id :=
    "seg_" ++ toString result.timestamp ++ "_" ++ result.segment_id
  let segment : ManagedTranscriptSegment :=
    { id := segment_id
      text := result.text
      confidence := result.confidence
      speaker := result.speaker
      timestamp := result.timestamp
      start_time := result.timestamp
      end_time := u64add result.timestamp result.processing_time_ms
      is_final := !result.is_temporary
      source := source
      corrections := [] }
  let push : SegmentOrganizer × String :=
    ({ org with segments :=
        (if org.max_segments ≤ org.segments.length then org.segments.tail
         else org.segments) ++ [segment] },
      segment_id)
  match org.segments.getLast? with
  | none => push
  | some last_segment =>
    if should_merge_with_previous segment last_segment then
      ({ org with segments :=
          org.segments.dropLast ++ [merge_into_last last_segment segment] },
        last_segment.id)
    else push

end SegmentOrganizer

/-- `ResultManager` state from `result_manager.rs` (lines 424-429); the
pending `HashMap` is an association list in insertion order. -/
structure ResultManager where
  organizer : SegmentOrganizer
  pending_results : List (String × TranscriptResult)
deriving Repr, DecidableEq

namespace ResultManager

def mkNew (max_segments : ℕ) : ResultManager :=
  ⟨SegmentOrganizer.mkNew max_segments, []⟩

/-- `HashMap::insert`: replace the entry with the same key, else append. -/
def insertPending (m : List (String × TranscriptResult)) (k : String)
    (v : TranscriptResult) : List (String × TranscriptResult) :=
  if m.any (fun kv => kv.1 = k) then
    m.map (fun kv => if kv.1 = k then (k, v) else kv)
  else m ++ [(k, v)]

/-- `ResultManager::is_related_segment` (`result_manager.rs`
lines 540-554): 3 s window and similarity strictly above 0.6 — note
these are NOT the dedup thresholds of `is_duplicate`. -/
def is_related_segment (pending final_result : TranscriptResult) : Bool :=
  let time_diff :=
    if final_result.timestamp > pending.timestamp then
      final_result.timestamp - pending.timestamp
    else pending.timestamp - final_result.timestamp
  decide (time_diff < 3000) &&
    decide (DeduplicationEngine.calculate_text_similarity pending.text
      final_result.text > 3 / 5)

/-- The commit loop at the end of `process_result` (`result_manager.rs`
lines 467-479): classify each merged result's source, add it to the
organizer, and collect the returned segment ids. -/
def commit_merged (org : SegmentOrganizer) :
    List TranscriptResult → SegmentOrganizer × List String
  | [] => (org, [])
  | mr :: rest =>
    let source :=
      if strStartsWith mr.segment_id "merged_" then SegmentSource.merged
      else if mr.is_temporary then SegmentSource.fastProcessing
      else SegmentSource.accurateProcessing
    let step := org.add_segment mr source
    let next := commit_merged step.1 rest
    (next.1, step.2 :: next.2)

/-- `ResultManager::process_result` (`result_manager.rs` lines 441-483):
temporary results are stored in the pending map; a final result pulls in
every related pending entry, deduplicates and merges the whole group and
commits each merged result to the organizer. -/
def process_result (rm : ResultManager) (result : TranscriptResult) :
    ResultManager × List String :=
  if result.is_temporary then
    ({ rm with pending_results :=
        insertPending rm.pending_results result.segment_id result }, [])
  else
    let related := rm.pending_results.filter
      (fun kv => is_related_segment kv.2 result)
    let remaining := rm.pending_results.filter
      (fun kv => !(is_related_segment kv.2 result))
    let results_to_process := result :: related.map Prod.snd
    let merged := DeduplicationEngine.merge_similar_results results_to_process
    let committed := commit_merged rm.organizer merged
    ({ organizer := committed.1, pending_results := remaining }, committed.2)

/-- `ResultManager::cleanup_old_pending` (`result_manager.rs`
lines 530-538): drop every pending entry whose timestamp is below
`now - max_age` (wrapping `u64` subtraction). -/
def cleanup_old_pending (rm : ResultManager) (now max_age : ℕ) :
    ResultManager :=
  let cutoff_time := u64subWrap now max_age
  { rm with pending_results :=
      rm.pending_results.filter (fun kv => decide (kv.2.timestamp ≥ cutoff_time)) }

end ResultManager

namespace SegmentOrganizer

/-- Folding a batch of results into the organizer, in arrival order. -/
def add_many (org : SegmentOrganizer)
    (rs : List (TranscriptResult × SegmentSource)) : SegmentOrganizer :=
  rs.foldl (fun o p => (o.add_segment p.1 p.2).1) org

lemma add_segment_sorted (org : SegmentOrganizer) (r : TranscriptResult)
    (src : SegmentSource)
    (hchain : (org.segments.map ManagedTranscriptSegment.start_time).Sorted
      (· ≤ ·))
    (hub : ∀ s ∈ org.segments, s.start_time ≤ r.timestamp) :
    ((org.add_segment r src).1.segments.map
      ManagedTranscriptSegment.start_time).Sorted (· ≤ ·) ∧
    ∀ s ∈ (org.add_segment r src).1.segments,
      s.start_time ≤ r.timestamp := by
  unfold add_segment
  cases hlast : org.segments.getLast? with
  | none =>
    have hnil : org.segments = [] := List.getLast?_eq_none_iff.mp hlast
    simp only [hnil]
    constructor
    · split <;> simp [List.Sorted]
    · split <;> simp
  | some last_segment =>
    have hdecomp : org.segments.dropLast ++ [last_segment] = org.segments :=
      List.dropLast_append_getLast? _ (by rw [hlast]; rfl)
    have hlast_mem : last_segment ∈ org.segments := by
      rw [← hdecomp]
      exact List.mem_append.mpr (Or.inr (List.mem_singleton_self _))
    have hstart : ∀ x : ManagedTranscriptSegment,
        (merge_into_last last_segment x).start_time =
          last_segment.start_time := fun _ => rfl
    simp only
    split
    · -- merge into the previous segment: start times are unchanged
      constructor
      · have hmap : ∀ x : ManagedTranscriptSegment,
            ((org.segments.dropLast ++ [merge_into_last last_segment x]).map
              ManagedTranscriptSegment.start_time) =
            org.segments.map ManagedTranscriptSegment.start_time := by
          intro x
          conv_rhs => rw [← hdecomp]
          rw [List.map_append, List.map_append, List.map_singleton,
            List.map_singleton, hstart]
        rw [hmap]
        exact hchain
      · intro s hs
        rcases List.mem_append.mp hs with hs | hs
        · exact hub s (List.Sublist.mem hs (List.dropLast_sublist _))
        · rw [List.mem_singleton.mp hs, hstart]
          exact hub last_segment hlast_mem
    · -- append (with possible front eviction)
      constructor
      · rw [List.map_append]
        refine (List.pairwise_append).mpr ⟨?_, ?_, ?_⟩
        · refine List.Pairwise.sublist (List.Sublist.map _ ?_) hchain
          split
          · exact List.tail_sublist _
          · exact List.Sublist.refl _
        · simp [List.Sorted]
        · intro a ha b hb
          simp only [List.map_cons, List.map_nil, List.mem_singleton] at hb
          subst hb
          rcases List.mem_map.mp ha with ⟨s, hs, rfl⟩
          have hs' : s ∈ org.segments := by
            revert hs
            split
            · exact fun hs => List.Sublist.mem hs (List.tail_sublist _)
            · exact fun hs => hs
          exact hub s hs'
      · intro s hs
        rcases List.mem_append.mp hs with hs | hs
        · have hs' : s ∈ org.segments := by
            revert hs
            split
            · exact fun hs => List.Sublist.mem hs (List.tail_sublist _)
            · exact fun hs => hs
          exact hub s hs'
        · rw [List.mem_singleton.mp hs]

lemma add_many_sorted :
    ∀ (rs : List (TranscriptResult × SegmentSource)) (org : SegmentOrganizer),
      (org.segments.map ManagedTranscriptSegment.start_time).Sorted (· ≤ ·) →
      (∀ s ∈ org.segments, ∀ p ∈ rs, s.start_time ≤ p.1.timestamp) →
      (rs.map (fun p => p.1.timestamp)).Sorted (· ≤ ·) →
      ((add_many org rs).segments.map
        ManagedTranscriptSegment.start_time).Sorted (· ≤ ·) := by
  intro rs
  induction rs with
  | nil => intro org hchain _ _; exact hchain
  | cons p rest ih =>
    intro org hchain hub hsort
    obtain ⟨h1, h2⟩ := add_segment_sorted org p.1 p.2 hchain
      (fun s hs => hub s hs p (List.mem_cons_self _ _))
    rw [List.map_cons, List.sorted_cons] at hsort
    refine ih _ h1 ?_ hsort.2
    intro s hs q hq
    exact le_trans (h2 s hs) (hsort.1 _ (List.mem_map_of_mem _ hq))

end SegmentOrganizer

def c1r1 : TranscriptResult := ⟨"hello", 9/10, false, none, 10000, 50, "a"⟩

def c1r2 : TranscriptResult :=
  ⟨"totally different words", 9/10, false, none, 0, 50, "b"⟩

/-- C1 counterexample: two final results for unrelated segments arriving
in reverse timestamp order are committed in arrival order, leaving the
organizer's start times unsorted — commitment order is completion order,
not timestamp order. -/
theorem c1_counterexample_arrival_order :
    ¬ ((((ResultManager.mkNew 1000).process_result c1r1).1.process_result
        c1r2).1.organizer.segments.map
        ManagedTranscriptSegment.start_time).Sorted (· ≤ ·) := by
  with_unfolding_all decide

/-- C1 (amended): the organizer appends committed segments in processing
order and never reorders them; committed start times are monotonically
non-decreasing whenever results are committed in non-decreasing timestamp
order, but this is not enforced for out-of-order completions. -/
theorem c1_sorted_commits (m : ℕ)
    (rs : List (TranscriptResult × SegmentSource))
    (hsort : (rs.map (fun p => p.1.timestamp)).Sorted (· ≤ ·)) :
    ((SegmentOrganizer.add_many (SegmentOrganizer.mkNew m) rs).segments.map
      ManagedTranscriptSegment.start_time).Sorted (· ≤ ·) :=
  SegmentOrganizer.add_many_sorted rs _ (by simp [SegmentOrganizer.mkNew])
    (by simp [SegmentOrganizer.mkNew]) hsort

/-- C1 witness: committing two in-order results keeps start times
sorted. -/
theorem c1_sorted_commits_witness :
    ((SegmentOrganizer.add_many (SegmentOrganizer.mkNew 1000)
      [(c1r2, SegmentSource.accurateProcessing),
       (c1r1, SegmentSource.accurateProcessing)]).segments.map
      ManagedTranscriptSegment.start_time).Sorted (· ≤ ·) :=
  c1_sorted_commits 1000 _ (by with_unfolding_all decide)

def c2temp : TranscriptResult := ⟨"hello again", 1/2, true, none, 5000, 20, "f1"⟩

/-- C2 counterexample: a temporary (fast) result whose accurate
counterpart never arrives (the accurate tier failed) is only stored in
the pending map; after `cleanup_old_pending` passes its age limit the
organizer still holds no committed segment and the pending map is empty —
the fast result was dropped, not promoted. -/
theorem c2_counterexample_lost_segment :
    (ResultManager.cleanup_old_pending
        ((ResultManager.mkNew 10).process_result c2temp).1 20001
        10000).organizer.segments = [] ∧
    (ResultManager.cleanup_old_pending
        ((ResultManager.mkNew 10).process_result c2temp).1 20001
        10000).pending_results = [] := by
  constructor
  · with_unfolding_all decide
  · with_unfolding_all decide

/-- C2 (amended): there is no promotion path.  Processing a temporary
result commits nothing (the organizer is untouched, no segment ids are
returned) and only stores the result in the pending map;
`cleanup_old_pending` also commits nothing and keeps only pending entries
at least as recent as the cutoff — so a fast result whose accurate
counterpart never arrives ages out of the pending map and the segment is
lost. -/
theorem c2_no_promotion (rm : ResultManager) (r : TranscriptResult)
    (h : r.is_temporary = true) (now max_age : ℕ) :
    (rm.process_result r).1.organizer = rm.organizer ∧
    (rm.process_result r).2 = [] ∧
    (rm.process_result r).1.pending_results =
      ResultManager.insertPending rm.pending_results r.segment_id r ∧
    (ResultManager.cleanup_old_pending (rm.process_result r).1 now
      max_age).organizer = rm.organizer ∧
    ∀ kv ∈ (ResultManager.cleanup_old_pending (rm.process_result r).1 now
      max_age).pending_results, kv.2.timestamp ≥ u64subWrap now max_age := by
  refine ⟨?_, ?_, ?_, ?_, ?_⟩ <;>
    simp only [ResultManager.process_result, ResultManager.cleanup_old_pending,
      h, if_true]
  intro kv hkv
  exact of_decide_eq_true (List.mem_filter.mp hkv).2

/-- C2 witness: the no-promotion theorem at the concrete lost segment. -/
theorem c2_no_promotion_witness :
    ((ResultManager.mkNew 10).process_result c2temp).2 = [] :=
  (c2_no_promotion (ResultManager.mkNew 10) c2temp rfl 20001 10000).2.1

/-- The claim's §4.4 dedup-criteria relation, modelled from the spec's
words ("timestamp difference < 2 s and word-level Jaccard similarity
≥ 0.8"); used only to compare against the code's
`is_related_segment`. -/
def specDedupRelated (p f : TranscriptResult) : Bool :=
  decide (DeduplicationEngine.time_diff p f < 2000) &&
    decide (DeduplicationEngine.calculate_text_similarity p.text f.text ≥ 8/10)

def c6p : TranscriptResult := ⟨"a b c d e f g", 1/2, true, none, 2500, 10, "p1"⟩

def c6f : TranscriptResult :=
  ⟨"a b c d e f g h i j", 9/10, false, none, 0, 100, "f1"⟩

/-- C6 counterexample: a pending temporary result 2500 ms away with
Jaccard similarity 0.7 is NOT related under the claim's §4.4 dedup
criteria (< 2 s, ≥ 0.8), yet `process_result` pulls it out of the pending
map (the code's window is 3 s and the bar is similarity > 0.6) and
commits it alongside the final result. -/
theorem c6_counterexample_pull_criteria :
    (((ResultManager.mkNew 100).process_result c6p).1.process_result
        c6f).1.pending_results = [] ∧
    specDedupRelated c6p c6f = false ∧
    ((((ResultManager.mkNew 100).process_result c6p).1.process_result
        c6f).2).length = 2 := by
  refine ⟨?_, ?_, ?_⟩ <;> with_unfolding_all decide

lemma merge_similar_results_ne_nil (r : TranscriptResult)
    (l : List TranscriptResult) :
    DeduplicationEngine.merge_similar_results (r :: l) ≠ [] := by
  unfold DeduplicationEngine.merge_similar_results
  split
  · exact List.cons_ne_nil r l
  · rw [DeduplicationEngine.merge_loop_cons]
    exact List.cons_ne_nil _ _

lemma commit_merged_snd_ne_nil (org : SegmentOrganizer)
    (l : List TranscriptResult) (h : l ≠ []) :
    (ResultManager.commit_merged org l).2 ≠ [] := by
  cases l with
  | nil => exact absurd rfl h
  | cons mr rest => exact List.cons_ne_nil _ _

/-- C6 (amended): a final result pulls in exactly those pending entries
whose timestamp lies within 3000 ms of the final's and whose text
similarity to the final is strictly greater than 0.6 (not the §4.4 dedup
criteria of 2 s and 0.8); the pulled group is deduplicated/merged and at
least one segment is always committed. -/
theorem c6_pull_window (rm : ResultManager) (r : TranscriptResult)
    (h : r.is_temporary = false) :
    (∀ kv ∈ rm.pending_results,
      (kv ∈ (rm.process_result r).1.pending_results ↔
        ¬ ((if r.timestamp > kv.2.timestamp then r.timestamp - kv.2.timestamp
            else kv.2.timestamp - r.timestamp) < 3000 ∧
           DeduplicationEngine.calculate_text_similarity kv.2.text r.text
             > 3/5))) ∧
    (rm.process_result r).2 ≠ [] := by
  constructor
  · intro kv hkv
    have hrel : (ResultManager.is_related_segment kv.2 r = true) ↔
        ((if r.timestamp > kv.2.timestamp then r.timestamp - kv.2.timestamp
          else kv.2.timestamp - r.timestamp) < 3000 ∧
         DeduplicationEngine.calculate_text_similarity kv.2.text r.text
           > 3/5) := by
      simp [ResultManager.is_related_segment]
    simp only [ResultManager.process_result, h, Bool.false_eq_true, if_false,
      List.mem_filter, hkv, true_and, Bool.not_eq_true']
    rw [← hrel]
    exact Bool.eq_false_iff
  · simp only [ResultManager.process_result, h, Bool.false_eq_true, if_false]
    exact commit_merged_snd_ne_nil _ _ (merge_similar_results_ne_nil _ _)

/-- C6 witness: the pull/commit theorem at the concrete related pair. -/
theorem c6_pull_window_witness :
    (((ResultManager.mkNew 100).process_result c6p).1.process_result
      c6f).2 ≠ [] :=
  (c6_pull_window ((ResultManager.mkNew 100).process_result c6p).1 c6f
    rfl).2

/-- NaN-aware `f32` value: `none` models NaN.  In every reachable
division below, a zero denominator comes with a zero numerator (empty
sums, zero crossing count on a one-sample frame), so the `f32` result is
0.0/0.0 = NaN; the model therefore returns `none` exactly on zero
denominators. -/
abbrev QF := Option ℚ

/-- NaN-aware division. -/
def qfDiv : QF → QF → QF
  | some x, some y => if y = 0 then none else some (x / y)
  | _, _ => none

/-- NaN-aware strict comparison: any comparison involving NaN is false,
as for `f32`. -/
def qfGt (x : QF) (t : ℚ) : Bool :=
  match x with
  | none => false
  | some v => decide (v > t)

/-- `VoiceActivityDetector` state from `audio_processing.rs`
(lines 6-21).  The history window stores the fused per-frame scores,
which are always genuine (non-NaN) numbers because both score summands
come out of boolean threshold tests; the smoothed probability is kept
NaN-aware. -/
structure VoiceActivityDetector where
  energy_threshold : ℚ
  zero_crossing_threshold : ℚ
  history_window : List ℚ
  speech_probability : QF
deriving Repr, DecidableEq

namespace VoiceActivityDetector

def new : VoiceActivityDetector := ⟨1/1000, 3/10, [], some 0⟩

/-- `VoiceActivityDetector::calculate_energy` (`audio_processing.rs`
lines 58-60): mean square amplitude; NaN (0.0/0.0) on an empty frame. -/
def calculate_energy (audio : List ℚ) : QF :=
  qfDiv (some ((audio.map (fun x => x * x)).sum)) (some (audio.length : ℚ))

/-- `VoiceActivityDetector::calculate_zero_crossing_rate`
(`audio_processing.rs` lines 62-70): sign changes over `len - 1`.  On an
empty frame the unsigned `audio.len() - 1` underflows, which panics in a
debug build: modelled as an error.  On a one-sample frame the result is
0/0 = NaN. -/
def calculate_zero_crossing_rate (audio : List ℚ) : Except String QF :=
  if audio.length = 0 then .error "usize underflow in audio.len() - 1"
  else
    let crossings := ((audio.zip audio.tail).countP
      (fun p => decide (p.1 ≥ 0) != decide (p.2 ≥ 0)))
    .ok (qfDiv (some (crossings : ℚ)) (some ((audio.length - 1 : ℕ) : ℚ)))

/-- `VoiceActivityDetector::is_speech` (`audio_processing.rs`
lines 23-40): threshold the two features, push the fused score into the
10-frame window, smooth, and compare against 0.3. -/
def is_speech (vad : VoiceActivityDetector) (audio : List ℚ) :
    Except String (Bool × VoiceActivityDetector) :=
  let energy := calculate_energy audio
  match calculate_zero_crossing_rate audio with
  | .error e => .error e
  | .ok zcr =>
    let energy_score : ℚ := if qfGt energy vad.energy_threshold then 1 else 0
    let zcr_score : ℚ :=
      if qfGt zcr vad.zero_crossing_threshold then 1 else 0
    let window1 := vad.history_window ++
      [energy_score * (7/10) + zcr_score * (3/10)]
    let window2 := if window1.length > 10 then window1.tail else window1
    let prob := qfDiv (some window2.sum) (some (window2.length : ℚ))
    .ok (qfGt prob (3/10),
      { vad with history_window := window2, speech_probability := prob })

end VoiceActivityDetector

/-- `SpeechSegment` from `audio_processing.rs` (lines 81-128); `Instant`s
are milliseconds. -/
structure SpeechSegment where
  audio_data : List ℚ
  start_time : ℕ
  end_time : Option ℕ
  is_complete : Bool
  energy_level : QF
deriving Repr, DecidableEq

namespace SpeechSegment

/-- `SpeechSegment::new` (`audio_processing.rs` lines 91-101). -/
def new (audio_data : List ℚ) (now : ℕ) : SpeechSegment :=
  ⟨audio_data, now, none, false,
    qfDiv (some ((audio_data.map (fun x => x * x)).sum))
      (some (audio_data.length : ℚ))⟩

/-- `SpeechSegment::add_audio` (`audio_processing.rs` lines 103-106). -/
def add_audio (s : SpeechSegment) (audio : List ℚ) : SpeechSegment :=
  let data := s.audio_data ++ audio
  { s with audio_data := data
           energy_level := qfDiv (some ((data.map (fun x => x * x)).sum))
             (some (data.length : ℚ)) }

/-- `SpeechSegment::complete` (`audio_processing.rs` lines 108-111). -/
def complete (s : SpeechSegment) (now : ℕ) : SpeechSegment :=
  { s with end_time := some now, is_complete := true }

/-- `SpeechSegment::duration` (`audio_processing.rs` lines 113-119), in
milliseconds against the supplied `now` when the segment is open
(`Instant::duration_since` saturates at zero). -/
def duration (s : SpeechSegment) (now : ℕ) : ℕ :=
  (s.end_time.getD now) - s.start_time

end SpeechSegment

/-- `SmartAudioBuffer` state from `audio_processing.rs` (lines 131-152).
`completed_segments` exists in the source but `add_chunk` only returns
its local list, so the field stays empty here as there. -/
structure SmartAudioBuffer where
  current_segment : Option SpeechSegment
  completed_segments : List SpeechSegment
  vad : VoiceActivityDetector
  silence_duration : ℕ
  last_speech_time : Option ℕ
  min_segment_duration : ℕ
  max_segment_duration : ℕ
deriving Repr, DecidableEq

namespace SmartAudioBuffer

def new : SmartAudioBuffer :=
  ⟨none, [], VoiceActivityDetector.new, 0, none, 500, 10000⟩

/-- `SmartAudioBuffer::add_chunk` (`audio_processing.rs` lines 154-202).
The call to `detect_speech_boundary` is bound to `_boundary` and unused
in the source, and it does not mutate state, so it is omitted.  On a
speech frame the chunk is appended to the open segment, and if the
segment then exceeds the maximum duration it is closed and emitted while
a new segment is opened FROM THE SAME CHUNK; on sustained silence the
open segment is closed and emitted only if long enough, else dropped. -/
def add_chunk (buf : SmartAudioBuffer) (chunk : List ℚ) (now : ℕ) :
    Except String (SmartAudioBuffer × List SpeechSegment) :=
  match buf.vad.is_speech chunk with
  | .error e => .error e
  | .ok (is_speech, vad') =>
    if is_speech then
      let buf1 := { buf with vad := vad', last_speech_time := some now,
                             silence_duration := 0 }
      match buf.current_segment with
      | some segment =>
        let grown := segment.add_audio chunk
        if grown.duration now > buf.max_segment_duration then
          .ok ({ buf1 with
                  current_segment := some (SpeechSegment.new chunk now) },
            [grown.complete now])
        else .ok ({ buf1 with current_segment := some grown }, [])
      | none =>
        .ok ({ buf1 with
                current_segment := some (SpeechSegment.new chunk now) }, [])
    else
      let silence :=
        match buf.last_speech_time with
        | some last_speech => now - last_speech
        | none => buf.silence_duration
      let buf1 := { buf with vad := vad', silence_duration := silence }
      if silence > 800 then
        match buf.current_segment with
        | some segment =>
          if segment.duration now ≥ buf.min_segment_duration then
            .ok ({ buf1 with current_segment := none },
              [segment.complete now])
          else .ok ({ buf1 with current_segment := none }, [])
        | none => .ok (buf1, [])
      else
        match buf.current_segment with
        | some segment =>
          .ok ({ buf1 with current_segment := some (segment.add_audio chunk) },
            [])
        | none => .ok (buf1, [])

/-- Feed a timed chunk script through `add_chunk`, collecting every
emitted segment. -/
def run_chunks (buf : SmartAudioBuffer) :
    List (List ℚ × ℕ) → Except String (SmartAudioBuffer × List SpeechSegment)
  | [] => .ok (buf, [])
  | (c, t) :: rest =>
    match buf.add_chunk c t with
    | .error e => .error e
    | .ok (buf', segs) =>
      match run_chunks buf' rest with
      | .error e => .error e
      | .ok (buf'', more) => .ok (buf'', segs ++ more)

end SmartAudioBuffer

/-- A 10-chunk stream: speech at t = 0, a distinctive marker chunk at
t = 10001 (which trips the 10 s maximum), more speech, then enough
silence to close the second segment. -/
def c3script : List (List ℚ × ℕ) :=
  [([1, -1], 0), ([1/2, -1/2], 10001), ([3/4, -3/4], 10600),
   ([0, 0], 10630), ([0, 0], 10660), ([0, 0], 10690), ([0, 0], 10720),
   ([0, 0], 10750), ([0, 0], 10780), ([0, 0], 11700)]

def c3emitted : Option (List (List ℚ)) :=
  (SmartAudioBuffer.run_chunks SmartAudioBuffer.new c3script).toOption.map
    (fun p => p.2.map SpeechSegment.audio_data)

/-- C3 counterexample: on the stream above the buffer emits two
segments, and the marker chunk `[1/2, -1/2]` fed at t = 10001 appears in
BOTH — the max-duration force split first appends the triggering chunk to
the closed segment and then seeds the reopened segment with the same
chunk, duplicating its samples across two emitted segments. -/
theorem c3_counterexample_overlap :
    c3emitted = some [[1, -1] ++ [1/2, -1/2],
      [1/2, -1/2] ++ ([3/4, -3/4] ++ List.replicate 12 0)] ∧
    List.IsInfix [1/2, -1/2] ([1, -1] ++ [1/2, -1/2]) ∧
    List.IsInfix [1/2, -1/2]
      ([1/2, -1/2] ++ ([3/4, -3/4] ++ List.replicate 12 0)) := by
  refine ⟨by with_unfolding_all decide, ⟨[1, -1], [], rfl⟩,
    ⟨[], [3/4, -3/4] ++ List.replicate 12 0, rfl⟩⟩

/-- C3 (amended): whenever a speech chunk pushes the open segment past
the maximum duration, `add_chunk` emits exactly that segment with the
chunk appended and reopens the next segment seeded with the very same
chunk — a split that loses no audio but duplicates the triggering chunk
in both the emitted and the successor segment. -/
theorem c3_force_split_duplicates (buf : SmartAudioBuffer)
    (chunk : List ℚ) (now : ℕ) (seg : SpeechSegment)
    (vad' : VoiceActivityDetector)
    (hcur : buf.current_segment = some seg)
    (hvad : buf.vad.is_speech chunk = .ok (true, vad'))
    (hlong : (seg.add_audio chunk).duration now > buf.max_segment_duration) :
    buf.add_chunk chunk now = .ok
      ({ buf with vad := vad', last_speech_time := some now,
                  silence_duration := 0,
                  current_segment := some (SpeechSegment.new chunk now) },
        [(seg.add_audio chunk).complete now]) ∧
    ((seg.add_audio chunk).complete now).audio_data =
      seg.audio_data ++ chunk ∧
    (SpeechSegment.new chunk now).audio_data = chunk := by
  refine ⟨?_, rfl, rfl⟩
  unfold SmartAudioBuffer.add_chunk
  rw [hvad]
  simp only [if_true, hcur, hlong, if_pos]

/-- C3 witness: a concrete force split emitting the over-long segment and
reopening from the same chunk. -/
theorem c3_force_split_duplicates_witness :
    ({ SmartAudioBuffer.new with
        current_segment := some (SpeechSegment.new [1, -1] 0) }
      : SmartAudioBuffer).add_chunk [1, -1] 10001 = .ok
      ({ SmartAudioBuffer.new with
          vad := { VoiceActivityDetector.new with
                    history_window := [1], speech_probability := some 1 }
          last_speech_time := some 10001
          silence_duration := 0
          current_segment := some (SpeechSegment.new [1, -1] 10001) },
        [((SpeechSegment.new [1, -1] 0).add_audio [1, -1]).complete 10001]) :=
  (c3_force_split_duplicates _ [1, -1] 10001 (SpeechSegment.new [1, -1] 0) _
    rfl (by with_unfolding_all decide) (by with_unfolding_all decide)).1

/-- C10 counterexample: on a one-sample frame `is_speech` neither panics
nor poisons the smoothed probability: the zero-crossing rate is NaN
(0/0), but `NaN > threshold` is false, so the fused score is 0.7 and the
smoothed speech probability is the genuine number 0.7 — the precondition
for a well-defined result is frame length ≥ 1, not ≥ 2. -/
theorem c10_counterexample_single_sample :
    VoiceActivityDetector.new.is_speech [1] = .ok (true,
      { VoiceActivityDetector.new with
          history_window := [7/10], speech_probability := some (7/10) }) := by
  with_unfolding_all decide

/-- C10 (amended): `is_speech` fails (debug-build panic from the
underflowing `audio.len() - 1`) exactly on the empty frame; on every
frame with at least one sample it returns normally and the stored
smoothed speech probability is a genuine (non-NaN) number, because a NaN
zero-crossing rate is absorbed by the threshold comparison. -/
theorem c10_vad_precondition (vad : VoiceActivityDetector)
    (audio : List ℚ) :
    (audio = [] → ∃ e, vad.is_speech audio = .error e) ∧
    (audio ≠ [] → ∃ b vad', vad.is_speech audio = .ok (b, vad') ∧
      vad'.speech_probability.isSome = true) := by
  constructor
  · rintro rfl
    exact ⟨_, rfl⟩
  · intro hne
    have hlen : audio.length ≠ 0 := fun h => hne (List.length_eq_zero.mp h)
    unfold VoiceActivityDetector.is_speech
      VoiceActivityDetector.calculate_zero_crossing_rate
    rw [if_neg hlen]
    refine ⟨_, _, rfl, ?_⟩
    simp only [qfDiv]
    rw [if_neg]
    · rfl
    · have h10 : ∀ l : List ℚ, l ≠ [] →
          ((if (l.length > 10) then l.tail else l).length : ℚ) ≠ 0 := by
        intro l hl
        split
        · rename_i hgt
          simp only [List.length_tail]
          have : 10 < l.length := hgt
          exact_mod_cast (by omega : l.length - 1 ≠ 0)
        · exact_mod_cast fun h => hl (List.length_eq_zero.mp h)
      exact h10 _ (by simp)

/-- C10 witness: the precondition theorem at the one-sample frame. -/
theorem c10_vad_precondition_witness :
    ∃ b vad', VoiceActivityDetector.new.is_speech [1] = .ok (b, vad') ∧
      vad'.speech_probability.isSome = true :=
  (c10_vad_precondition VoiceActivityDetector.new [1]).2
    (List.cons_ne_nil _ _)

/-- `RealtimeRecognitionResult` from `realtime_whisper.rs` (lines 42-50),
the engine-side result consumed by the fast tier. -/
structure RealtimeRecognitionResult where
  text : String
  confidence : ℚ
  is_temporary : Bool
  speaker : Option String
  timestamp : ℕ
  processing_time_ms : ℕ
deriving Repr, DecidableEq

/-- `SpeechSegment::length_seconds` (`audio_processing.rs`
lines 125-127): samples over the 16 kHz rate. -/
def SpeechSegment.length_seconds (s : SpeechSegment) : ℚ :=
  (s.audio_data.length : ℚ) / 16000

namespace FastProcessor

/-- `max_processing_time` fixed at 150 ms by `FastProcessor::new`
(`layered_processor.rs` line 52). -/
def max_processing_time_ms : ℕ := 150

/-- `FastProcessor::transcribe_draft` (`layered_processor.rs`
lines 56-85).  The external recognition engine call
(`process_audio_chunk`) and the wall-clock latency of that call are
inputs of the model: `engine_outcome` is the engine's `Result` and
`elapsed_ms` the measured processing time. -/
def transcribe_draft (segment : SpeechSegment)
    (engine_outcome : Except String RealtimeRecognitionResult)
    (elapsed_ms : ℕ) : Option TranscriptResult :=
  if segment.length_seconds > 2 then none
  else
    match engine_outcome with
    | .ok whisper_result =>
      if elapsed_ms > max_processing_time_ms then none
      else some
        { text := whisper_result.text
          confidence := whisper_result.confidence * (8/10)
          is_temporary := true
          speaker := whisper_result.speaker
          timestamp := whisper_result.timestamp
          processing_time_ms := elapsed_ms
          segment_id := "fast_" ++ toString whisper_result.timestamp }
    | .error _ => none

end FastProcessor

/-- C7: the fast tier emits a result exactly when the segment lasts at
most 2 s, the engine call succeeded, and the measured latency is within
the 150 ms budget (over-budget results are discarded); every emitted
fast result is temporary. -/
theorem c7_fast_tier_emission (segment : SpeechSegment)
    (engine_outcome : Except String RealtimeRecognitionResult)
    (elapsed_ms : ℕ) :
    ((FastProcessor.transcribe_draft segment engine_outcome
        elapsed_ms).isSome = true ↔
      (segment.length_seconds ≤ 2 ∧ (∃ wr, engine_outcome = .ok wr) ∧
        elapsed_ms ≤ 150)) ∧
    (∀ r, FastProcessor.transcribe_draft segment engine_outcome
        elapsed_ms = some r → r.is_temporary = true) := by
  unfold FastProcessor.transcribe_draft FastProcessor.max_processing_time_ms
  constructor
  · by_cases hlen : segment.length_seconds > 2
    · rw [if_pos hlen]
      simp only [Option.isSome_none, Bool.false_eq_true, false_iff, not_and]
      intro hle
      exact absurd hlen (not_lt.mpr hle)
    · rw [if_neg hlen]
      cases engine_outcome with
      | error e =>
        simp only [Option.isSome_none, Bool.false_eq_true, false_iff,
          not_and]
        rintro - ⟨wr, hwr⟩
        exact Except.noConfusion hwr
      | ok wr =>
        dsimp only
        by_cases htime : elapsed_ms > 150
        · rw [if_pos htime]
          simp only [Option.isSome_none, Bool.false_eq_true, false_iff,
            not_and]
          rintro - - h
          exact absurd htime (not_lt.mpr h)
        · rw [if_neg htime]
          simp only [Option.isSome_some, true_iff]
          exact ⟨not_lt.mp hlen, ⟨wr, rfl⟩, not_lt.mp htime⟩
  · intro r hr
    by_cases hlen : segment.length_seconds > 2
    · rw [if_pos hlen] at hr
      exact Option.noConfusion hr
    · rw [if_neg hlen] at hr
      cases engine_outcome with
      | error e => exact Option.noConfusion hr
      | ok wr =>
        dsimp only at hr
        by_cases htime : elapsed_ms > 150
        · rw [if_pos htime] at hr
          exact Option.noConfusion hr
        · rw [if_neg htime] at hr
          rw [← Option.some_inj.mp hr]

def c7seg : SpeechSegment := SpeechSegment.new [1, -1, 1, -1] 0

def c7wr : RealtimeRecognitionResult := ⟨"hello", 9/10, true, none, 4321, 90⟩

/-- C7 witness: an in-budget short segment yields a temporary result. -/
theorem c7_fast_tier_emission_witness :
    (FastProcessor.transcribe_draft c7seg (Except.ok c7wr) 100).isSome
      = true ∧
    (FastProcessor.transcribe_draft c7seg (Except.ok c7wr) 100).map
      TranscriptResult.is_temporary = some true := by
  have h := c7_fast_tier_emission c7seg (Except.ok c7wr) 100
  have hs : (FastProcessor.transcribe_draft c7seg (Except.ok c7wr)
      100).isSome = true :=
    h.1.mpr ⟨by with_unfolding_all decide, ⟨c7wr, rfl⟩, by decide⟩
  refine ⟨hs, ?_⟩
  cases heq : FastProcessor.transcribe_draft c7seg (Except.ok c7wr) 100 with
  | none => rw [heq] at hs; exact Bool.noConfusion hs
  | some r => simp [h.2 r heq]

namespace Diarization

/-- `SpeakerProfile` from `realtime_speaker_diarization.rs`
(lines 4-13). -/
structure SpeakerProfile where
  id : String
  name : String
  fundamental_freq : ℚ
  formant_frequencies : List ℚ
  spectral_centroid : ℚ
  confidence : ℚ
  sample_count : ℕ
deriving Repr, DecidableEq

/-- `VoiceFeatures` from `realtime_speaker_diarization.rs`
(lines 15-24). -/
structure VoiceFeatures where
  fundamental_freq : ℚ
  formant_frequencies : List ℚ
  spectral_centroid : ℚ
  spectral_bandwidth : ℚ
  zero_crossing_rate : ℚ
  energy : ℚ
  mfcc_features : List ℚ
deriving Repr, DecidableEq

/-- `RealtimeSpeakerDiarization` state (lines 26-42); the `HashMap` of
profiles is an association list in insertion order. -/
structure RealtimeSpeakerDiarization where
  speaker_profiles : List (String × SpeakerProfile)
  current_speaker : Option String
  feature_history : List VoiceFeatures
  max_history : ℕ
deriving Repr, DecidableEq

def new : RealtimeSpeakerDiarization := ⟨[], none, [], 10⟩

/-- `calculate_speaker_similarity` (`realtime_speaker_diarization.rs`
lines 370-424): weighted blend of fundamental-frequency, centroid,
formant and MFCC similarities, each branch active only under the source's
positivity/length guards; note the MFCC distance is computed against the
ZERO vector (the literal `- 0.0` of line 411), not the stored profile.
The `f32` square root is modelled by `Rat.sqrt` (exact on perfect
squares; every concrete run below reaches it only at 0, and the symbolic
theorems use only its sign).  List indexing inside the loops uses `getD`
with an unreachable default, as the loop bounds keep the index in
range. -/
def calculate_speaker_similarity (features : VoiceFeatures)
    (profile : SpeakerProfile) : ℚ :=
  let acc1 : ℚ × ℚ :=
    if features.fundamental_freq > 0 ∧ profile.fundamental_freq > 0 then
      let freq_diff := |features.fundamental_freq - profile.fundamental_freq|
      let freq_sim := 1 - min (freq_diff /
        (features.fundamental_freq + profile.fundamental_freq) * 2) 1
      (freq_sim * (3/10), 3/10)
    else (0, 0)
  let acc2 : ℚ × ℚ :=
    if features.spectral_centroid > 0 ∧ profile.spectral_centroid > 0 then
      let centroid_diff := |features.spectral_centroid -
        profile.spectral_centroid|
      let centroid_sim := 1 - min (centroid_diff /
        (features.spectral_centroid + profile.spectral_centroid) * 2) 1
      (acc1.1 + centroid_sim * (2/10), acc1.2 + 2/10)
    else acc1
  let formant_count := min features.formant_frequencies.length
    profile.formant_frequencies.length
  let acc3 : ℚ × ℚ :=
    if formant_count > 0 then
      let fsum := (List.range formant_count).foldl (fun acc i =>
        let fv := features.formant_frequencies.getD i 0
        let pv := profile.formant_frequencies.getD i 0
        if fv > 0 ∧ pv > 0 then
          acc + (1 - min (|fv - pv| / (fv + pv) * 2) 1)
        else acc) 0
      let formant_similarity := fsum / (formant_count : ℚ)
      (acc2.1 + formant_similarity * (3/10), acc2.2 + 3/10)
    else acc2
  let mfcc_count := min features.mfcc_features.length 12
  let acc4 : ℚ × ℚ :=
    if mfcc_count > 0 then
      let mfcc_distance := (List.range mfcc_count).foldl (fun acc i =>
        let d := features.mfcc_features.getD i 0 - 0
        acc + d * d) 0
      let mfcc_sim := 1 / (1 + Rat.sqrt mfcc_distance)
      (acc3.1 + mfcc_sim * (2/10), acc3.2 + 2/10)
    else acc3
  if acc4.2 > 0 then acc4.1 / acc4.2 else 0

/-- The formant-update loop of `update_speaker_profile` (lines 441-445):
elementwise exponential moving average over the common prefix of the two
formant lists, skipping non-positive incoming formants. -/
def ema_formants : List ℚ → List ℚ → List ℚ
  | pv :: ps, fv :: fs =>
    (if fv > 0 then pv * (1 - 1/10) + fv * (1/10) else pv) ::
      ema_formants ps fs
  | ps, [] => ps
  | [], _ => []

/-- `update_speaker_profile` (`realtime_speaker_diarization.rs`
lines 426-452): exponential moving average with α = 0.1 on the positive
incoming features, sample count increment, confidence pulled toward 1. -/
def update_speaker_profile (p : SpeakerProfile) (features : VoiceFeatures) :
    SpeakerProfile :=
  let alpha : ℚ := 1/10
  let p1 :=
    if features.fundamental_freq > 0 then
      { p with fundamental_freq := p.fundamental_freq * (1 - alpha) +
          features.fundamental_freq * alpha }
    else p
  let p2 :=
    if features.spectral_centroid > 0 then
      { p1 with spectral_centroid := p1.spectral_centroid * (1 - alpha) +
          features.spectral_centroid * alpha }
    else p1
  { p2 with
      formant_frequencies :=
        ema_formants p2.formant_frequencies features.formant_frequencies,
      sample_count := p.sample_count + 1,
      confidence := min (p.confidence * (9/10) + 1/10) 1 }

/-- `identify_speaker` (`realtime_speaker_diarization.rs` lines 44-119),
embedded at the feature level: the claim speaks of voice-feature vectors,
so the heavy floating-point feature extraction (lines 121-368) stays
outside the model and `features` is the extracted vector.  Push into the
bounded history, create the first profile if none exist, otherwise match
against the best profile and either EMA-update it (similarity > 0.7) or
mint a new profile and label. -/
def identify_speaker (st : RealtimeSpeakerDiarization)
    (features : VoiceFeatures) :
    RealtimeSpeakerDiarization × Option String :=
  let history1 := st.feature_history ++ [features]
  let history2 :=
    if history1.length > st.max_history then history1.tail else history1
  let st1 := { st with feature_history := history2 }
  if st1.speaker_profiles = [] then
    let profile : SpeakerProfile :=
      ⟨"Speaker_1", "说话人A", features.fundamental_freq,
        features.formant_frequencies, features.spectral_centroid, 1, 1⟩
    ({ st1 with speaker_profiles := [("Speaker_1", profile)]
                current_speaker := some "Speaker_1" }, some "说话人A")
  else
    let best := st1.speaker_profiles.foldl
      (fun (acc : Option String × ℚ) kv =>
        let similarity := calculate_speaker_similarity features kv.2
        if similarity > acc.2 then (some kv.1, similarity) else acc)
      (none, 0)
    let create_new : RealtimeSpeakerDiarization × Option String :=
      let speaker_count := st1.speaker_profiles.length
      let speaker_id := "Speaker_" ++ toString (speaker_count + 1)
      let speaker_names := ["说话人A", "说话人B", "说话人C", "说话人D"]
      let speaker_name := speaker_names.getD speaker_count "说话人X"
      let profile : SpeakerProfile :=
        ⟨speaker_id, speaker_name, features.fundamental_freq,
          features.formant_frequencies, features.spectral_centroid, 1, 1⟩
      ({ st1 with
          speaker_profiles := st1.speaker_profiles ++ [(speaker_id, profile)]
          current_speaker := some speaker_id }, some speaker_name)
    match best.1 with
    | some speaker_id =>
      if best.2 > 7/10 then
        let profiles := st1.speaker_profiles.map (fun kv =>
          if kv.1 = speaker_id then (kv.1, update_speaker_profile kv.2 features)
          else kv)
        -- the source's `.get(&speaker_id).unwrap()`: the id comes from the
        -- fold over the very same map, so the lookup cannot miss and the
        -- default is dead
        let name := ((profiles.lookup speaker_id).map
          SpeakerProfile.name).getD ""
        ({ st1 with speaker_profiles := profiles
                    current_speaker := some speaker_id }, some name)
      else create_new
    | none => create_new

def get_speaker_count (st : RealtimeSpeakerDiarization) : ℕ :=
  st.speaker_profiles.length

lemma foldl_add_sq_le (f : ℕ → ℚ) :
    ∀ (l : List ℕ) (a : ℚ), a ≤ l.foldl (fun acc i => acc + f i * f i) a
  | [], a => le_refl a
  | i :: l, a =>
    le_trans (by nlinarith [mul_self_nonneg (f i)])
      (foldl_add_sq_le f l (a + f i * f i))

/-- A feature vector with positive fundamental frequency, positive
spectral centroid and three positive formants scores strictly above the
0.7 threshold against the profile holding exactly those features: the
first three branches contribute similarity 1 with weight 0.8, and the
MFCC term only adds a nonnegative amount. -/
lemma similarity_identical_gt (f : VoiceFeatures) (φ1 φ2 φ3 : ℚ)
    (idStr nameStr : String) (c : ℚ) (k : ℕ)
    (hf : 0 < f.fundamental_freq) (hc : 0 < f.spectral_centroid)
    (hform : f.formant_frequencies = [φ1, φ2, φ3])
    (h1 : 0 < φ1) (h2 : 0 < φ2) (h3 : 0 < φ3) :
    7/10 < calculate_speaker_similarity f
      ⟨idStr, nameStr, f.fundamental_freq, f.formant_frequencies,
        f.spectral_centroid, c, k⟩ := by
  have hr3 : List.range 3 = [0, 1, 2] := rfl
  have hmin01 : min (0:ℚ) 1 = 0 := by norm_num
  have h03 : (0:ℕ) < 3 := by norm_num
  unfold calculate_speaker_similarity
  simp only [hform, List.length_cons, List.length_nil, min_self, gt_iff_lt,
    hf, hc, h1, h2, h3, and_self, if_true, h03, hr3,
    List.foldl_cons, List.foldl_nil, List.getD_cons_zero,
    List.getD_cons_succ, sub_self, abs_zero, zero_div, zero_mul, hmin01,
    sub_zero, zero_add, one_mul]
  by_cases hk : 0 < f.mfcc_features.length ⊓ 12
  · simp only [hk, if_true]
    have hd : (0:ℚ) ≤ (List.range (f.mfcc_features.length ⊓ 12)).foldl
        (fun acc i => acc + f.mfcc_features.getD i 0 *
          f.mfcc_features.getD i 0) 0 :=
      foldl_add_sq_le _ _ 0
    have hs := Rat.sqrt_nonneg ((List.range (f.mfcc_features.length
      ⊓ 12)).foldl (fun acc i => acc + f.mfcc_features.getD i 0 *
        f.mfcc_features.getD i 0) 0)
    set s := Rat.sqrt ((List.range (f.mfcc_features.length ⊓ 12)).foldl
      (fun acc i => acc + f.mfcc_features.getD i 0 *
        f.mfcc_features.getD i 0) 0) with hsdef
    have hone : (0:ℚ) < 1 + s := by linarith
    have hσ : (0:ℚ) ≤ 1 / (1 + s) := by positivity
    have hσ' : (0:ℚ) ≤ (1 + s)⁻¹ := by positivity
    split_ifs with hw
    · norm_num
      nlinarith [hσ, hσ', hs, hone]
    · exfalso
      apply hw
      norm_num
  · simp only [hk, if_false]
    split_ifs with hw
    · norm_num
    · exfalso
      apply hw
      norm_num

end Diarization

def c8features : Diarization.VoiceFeatures :=
  ⟨500, [0, 0, 0], 0, 0, 0, 0, List.replicate 12 0⟩

/-- C8 counterexample: feeding the all-silence feature vector (positive
pitch estimate, zero centroid, zero formants, zero MFCC) twice from a
fresh diarizer creates TWO distinct speaker profiles: the second call's
similarity against the profile created by the first is only 5/8 (the
centroid branch is inactive and the zero formants contribute similarity 0
while still adding their weight), not 1.0, so it falls below the 0.7
threshold and a duplicate profile is minted. -/
theorem c8_counterexample_duplicate_profile :
    Diarization.get_speaker_count
      (Diarization.identify_speaker
        (Diarization.identify_speaker Diarization.new c8features).1
        c8features).1 = 2 ∧
    Diarization.calculate_speaker_similarity c8features
      ⟨"Speaker_1", "说话人A", 500, [0, 0, 0], 0, 1, 1⟩ = 5/8 := by
  constructor
  · with_unfolding_all decide
  · with_unfolding_all decide

/-- C8 (amended): for feature vectors with positive fundamental
frequency, positive spectral centroid and three positive formants, the
identical vector fed twice in succession never creates a second profile:
the second call scores above the 0.7 threshold, EMA-updates the existing
profile back onto the same feature values, bumps its sample count to 2
and returns the same label.  (With zeroed centroid/formants the
similarity of an identical vector can fall to 0.7 or below and a
duplicate profile IS created, because the inactive branches lose weight
and the MFCC similarity is measured against a zero baseline.) -/
theorem c8_repeat_features_no_new_profile (f : Diarization.VoiceFeatures)
    (φ1 φ2 φ3 : ℚ)
    (hf : 0 < f.fundamental_freq) (hc : 0 < f.spectral_centroid)
    (hform : f.formant_frequencies = [φ1, φ2, φ3])
    (h1 : 0 < φ1) (h2 : 0 < φ2) (h3 : 0 < φ3) :
    Diarization.get_speaker_count
      (Diarization.identify_speaker
        (Diarization.identify_speaker Diarization.new f).1 f).1 = 1 ∧
    (Diarization.identify_speaker
      (Diarization.identify_speaker Diarization.new f).1 f).2 =
        some "说话人A" ∧
    ((Diarization.identify_speaker
        (Diarization.identify_speaker Diarization.new f).1
          f).1.speaker_profiles.lookup "Speaker_1").map
      (fun p => (p.fundamental_freq, p.formant_frequencies,
        p.spectral_centroid, p.sample_count)) =
      some (f.fundamental_freq, f.formant_frequencies,
        f.spectral_centroid, 2) := by
  have hstep1 : Diarization.identify_speaker Diarization.new f =
      ({ Diarization.new with
          feature_history := [f],
          speaker_profiles := [("Speaker_1",
            ⟨"Speaker_1", "说话人A", f.fundamental_freq,
              f.formant_frequencies, f.spectral_centroid, 1, 1⟩)],
          current_speaker := some "Speaker_1" }, some "说话人A") := rfl
  have hsim := Diarization.similarity_identical_gt f φ1 φ2 φ3
    "Speaker_1" "说话人A" 1 1 hf hc hform h1 h2 h3
  have hpos : (0:ℚ) < Diarization.calculate_speaker_similarity f
      ⟨"Speaker_1", "说话人A", f.fundamental_freq, f.formant_frequencies,
        f.spectral_centroid, 1, 1⟩ := lt_trans (by norm_num) hsim
  have hema : Diarization.ema_formants [φ1, φ2, φ3] [φ1, φ2, φ3] =
      [φ1, φ2, φ3] := by
    simp only [Diarization.ema_formants, gt_iff_lt, h1, h2, h3, if_true]
    rw [show φ1 * (1 - 1/10) + φ1 * (1/10) = φ1 by ring,
      show φ2 * (1 - 1/10) + φ2 * (1/10) = φ2 by ring,
      show φ3 * (1 - 1/10) + φ3 * (1/10) = φ3 by ring]
  have hupd : Diarization.update_speaker_profile
      ⟨"Speaker_1", "说话人A", f.fundamental_freq, f.formant_frequencies,
        f.spectral_centroid, 1, 1⟩ f =
      ⟨"Speaker_1", "说话人A", f.fundamental_freq, f.formant_frequencies,
        f.spectral_centroid, 1, 2⟩ := by
    unfold Diarization.update_speaker_profile
    simp only [gt_iff_lt, hf, hc, if_true, hform, hema]
    refine Diarization.SpeakerProfile.mk.injEq .. |>.mpr
      ⟨rfl, rfl, by ring, rfl, by ring, by norm_num, rfl⟩
  rw [hstep1]
  refine ⟨?_, ?_, ?_⟩ <;>
    simp [Diarization.identify_speaker, Diarization.new,
      Diarization.get_speaker_count, hpos, hsim, hupd, List.lookup]

def c8good : Diarization.VoiceFeatures :=
  ⟨200, [500, 1500, 2500], 1000, 0, 0, 0, List.replicate 12 0⟩

/-- C8 witness: a fully-populated feature vector re-identifies its own
profile. -/
theorem c8_repeat_features_no_new_profile_witness :
    Diarization.get_speaker_count
      (Diarization.identify_speaker
        (Diarization.identify_speaker Diarization.new c8good).1
        c8good).1 = 1 :=
  (c8_repeat_features_no_new_profile c8good 500 1500 2500
    (by with_unfolding_all decide) (by with_unfolding_all decide) rfl
    (by with_unfolding_all decide) (by with_unfolding_all decide)
    (by with_unfolding_all decide)).1

namespace ContextProc

/-- `ConversationSegment` from `context_processor.rs` (lines 8-15). -/
structure ConversationSegment where
  text : String
  speaker_id : Option String
  timestamp : ℕ
  confidence : ℚ
  segment_id : String
deriving Repr, DecidableEq

/-- `VoiceCharacteristics` from `context_processor.rs` (lines 26-32). -/
structure VoiceCharacteristics where
  pitch_mean : ℚ
  pitch_variance : ℚ
  energy_mean : ℚ
  speaking_rate : ℚ
deriving Repr, DecidableEq

/-- `SpeakingPatterns` from `context_processor.rs` (lines 34-39); the
`HashMap` of phrases is an association list. -/
structure SpeakingPatterns where
  common_phrases : List (String × ℕ)
  pause_patterns : List ℚ
  sentence_length_avg : ℚ
deriving Repr, DecidableEq

/-- `SpeakerProfile` from `context_processor.rs` (lines 17-24). -/
structure SpeakerProfile where
  speaker_id : String
  voice_characteristics : VoiceCharacteristics
  speaking_patterns : SpeakingPatterns
  vocabulary_patterns : List String
  last_active : ℕ
deriving Repr, DecidableEq

/-- `ConversationBuffer` from `context_processor.rs` (lines 62-67). -/
structure ConversationBuffer where
  segments : List ConversationSegment
  max_segments : ℕ
  max_age_ms : ℕ
deriving Repr, DecidableEq

namespace ConversationBuffer

/-- `cleanup_old_segments` (`context_processor.rs` lines 130-144): drop
leading segments older than `now - max_age` (wrapping u64
subtraction). -/
def cleanup_old_segments (buf : ConversationBuffer) (now : ℕ) :
    ConversationBuffer :=
  let cutoff_time := u64subWrap now buf.max_age_ms
  { buf with segments :=
      buf.segments.dropWhile (fun seg => decide (seg.timestamp < cutoff_time)) }

/-- `ConversationBuffer::add_segment` (`context_processor.rs`
lines 78-87). -/
def add_segment (buf : ConversationBuffer) (segment : ConversationSegment)
    (now : ℕ) : ConversationBuffer :=
  let buf := cleanup_old_segments buf now
  let segs :=
    if buf.max_segments ≤ buf.segments.length then buf.segments.tail
    else buf.segments
  { buf with segments := segs ++ [segment] }

/-- Rust `Vec::join(" ")`. -/
def joinSpace : List String → String
  | [] => ""
  | [w] => w
  | w :: rest => w ++ " " ++ joinSpace rest

/-- The reverse-iteration word-budget loop of `get_recent_context`
(`context_processor.rs` lines 93-105); the subtraction
`max_words - word_count` cannot underflow because the running count never
exceeds the budget. -/
def get_recent_context_loop (max_words : ℕ) :
    List ConversationSegment → ℕ → String → String
  | [], _, context => context
  | seg :: rest, word_count, context =>
    let words := splitWords seg.text
    if word_count + words.length > max_words then
      let remaining := max_words - word_count
      let partial_text := joinSpace (words.drop (words.length - remaining))
      partial_text ++ " " ++ context
    else
      get_recent_context_loop max_words rest (word_count + words.length)
        (seg.text ++ " " ++ context)

/-- `ConversationBuffer::get_recent_context` (`context_processor.rs`
lines 89-108). -/
def get_recent_context (buf : ConversationBuffer) (max_words : ℕ) :
    String :=
  trimStr (get_recent_context_loop max_words buf.segments.reverse 0 "")

end ConversationBuffer

/-- `SpeakerModel` state from `context_processor.rs` (lines 148-160). -/
structure SpeakerModel where
  speakers : List (String × SpeakerProfile)
  current_speaker : Option String
  speaker_counter : ℕ
deriving Repr, DecidableEq

namespace SpeakerModel

def new : SpeakerModel := ⟨[], none, 0⟩

/-- `estimate_speaking_rate` (`context_processor.rs` lines 239-244).
The `as u32` cast truncates the nonnegative f32 toward zero (floor); on
empty audio the f32 result is NaN where the ℚ model yields 0 — the
claims below do not depend on this value. -/
def estimate_speaking_rate (audio : List ℚ) : ℚ :=
  let duration_seconds : ℚ := (audio.length : ℚ) / 16000
  let estimated_words : ℕ := (duration_seconds * (5/2)).floor.toNat
  ((estimated_words : ℚ) / duration_seconds) * 60

/-- `extract_voice_characteristics` (`context_processor.rs`
lines 207-218); on empty audio the f32 energy mean is NaN where the ℚ
model yields 0 — again only speaker-matching scores depend on it. -/
def extract_voice_characteristics (audio : List ℚ) :
    VoiceCharacteristics :=
  let energy_mean :=
    (audio.map (fun x => x * x)).sum / (audio.length : ℚ)
  ⟨0, 0, energy_mean, estimate_speaking_rate audio⟩

/-- `extract_speaking_patterns` (`context_processor.rs` lines 220-229). -/
def extract_speaking_patterns (text : String) : SpeakingPatterns :=
  let words := splitWords text
  let sentence_count :=
    max (text.data.countP (fun c => c = '.' ∨ c = '!' ∨ c = '?')) 1
  ⟨[], [], (words.length : ℚ) / (sentence_count : ℚ)⟩

/-- Rust `str::to_lowercase`, character-level model (identical on the
ASCII/CJK inputs that occur here). -/
def lowerStr (s : String) : String :=
  String.mk (s.data.map Char.toLower)

/-- `extract_vocabulary_patterns` (`context_processor.rs`
lines 231-237); word length is Rust byte length. -/
def extract_vocabulary_patterns (text : String) : List String :=
  ((splitWords text).filter (fun w => 3 < w.utf8ByteSize)).map lowerStr

/-- `calculate_similarity_score` (`context_processor.rs`
lines 266-280). -/
def calculate_similarity_score
    (profile_chars current_chars : VoiceCharacteristics) : ℚ :=
  let energy_diff := |profile_chars.energy_mean - current_chars.energy_mean|
  let rate_diff := |profile_chars.speaking_rate - current_chars.speaking_rate|
  let energy_similarity :=
    1 - min (energy_diff / (profile_chars.energy_mean + 1/1000000)) 1
  let rate_similarity := 1 - min (rate_diff / 100) 1
  (energy_similarity + rate_similarity) / 2

/-- `find_best_speaker_match` (`context_processor.rs` lines 246-264). -/
def find_best_speaker_match (model : SpeakerModel)
    (characteristics : VoiceCharacteristics) : Option (String × ℚ) :=
  (model.speakers.foldl (fun (acc : Option (String × ℚ) × ℚ) kv =>
    let score := calculate_similarity_score
      kv.2.voice_characteristics characteristics
    if score > acc.2 then (some (kv.1, score), score) else acc)
    (none, 0)).1

/-- `update_speaker_profile` (`context_processor.rs` lines 282-309):
exponential moving average with α = 0.1, refresh of `last_active`. -/
def update_speaker_profile (speakers : List (String × SpeakerProfile))
    (speaker_id : String) (characteristics : VoiceCharacteristics)
    (patterns : SpeakingPatterns) (now : ℕ) :
    List (String × SpeakerProfile) :=
  let alpha : ℚ := 1/10
  speakers.map (fun kv =>
    if kv.1 = speaker_id then
      (kv.1, { kv.2 with
        voice_characteristics := { kv.2.voice_characteristics with
          energy_mean := kv.2.voice_characteristics.energy_mean *
              (1 - alpha) + characteristics.energy_mean * alpha,
          speaking_rate := kv.2.voice_characteristics.speaking_rate *
              (1 - alpha) + characteristics.speaking_rate * alpha },
        speaking_patterns := { kv.2.speaking_patterns with
          sentence_length_avg := kv.2.speaking_patterns.sentence_length_avg *
              (1 - alpha) + patterns.sentence_length_avg * alpha },
        last_active := now })
    else kv)

/-- `SpeakerModel::identify_speaker` (`context_processor.rs`
lines 163-197). -/
def identify_speaker (model : SpeakerModel) (audio : List ℚ)
    (text : String) (now : ℕ) : SpeakerModel × Option String :=
  let characteristics := extract_voice_characteristics audio
  let speaking_patterns := extract_speaking_patterns text
  let best_match := find_best_speaker_match model characteristics
  match best_match with
  | some (speaker_id, confidence) =>
    if confidence > 7/10 then
      ({ model with
          current_speaker := some speaker_id,
          speakers := update_speaker_profile model.speakers speaker_id
            characteristics speaking_patterns now },
        some speaker_id)
    else
      let new_speaker_id := "Speaker_" ++ toString model.speaker_counter
      let profile : SpeakerProfile :=
        ⟨new_speaker_id, characteristics, speaking_patterns,
          extract_vocabulary_patterns text, now⟩
      ({ model with
          speakers := model.speakers ++ [(new_speaker_id, profile)],
          current_speaker := some new_speaker_id,
          speaker_counter := model.speaker_counter + 1 },
        some new_speaker_id)
  | none =>
    let new_speaker_id := "Speaker_" ++ toString model.speaker_counter
    let profile : SpeakerProfile :=
      ⟨new_speaker_id, characteristics, speaking_patterns,
        extract_vocabulary_patterns text, now⟩
    ({ model with
        speakers := model.speakers ++ [(new_speaker_id, profile)],
        current_speaker := some new_speaker_id,
        speaker_counter := model.speaker_counter + 1 },
      some new_speaker_id)

end SpeakerModel

/-- Fuel-based model of Rust `str::replace` (all non-overlapping
occurrences, left to right); fuel = input length suffices since each
step consumes at least one character.  Patterns used here are always
nonempty, so the empty-pattern guard never fires. -/
def replaceChars (pat rep : List Char) : ℕ → List Char → List Char
  | _, [] => []
  | 0, l => l
  | fuel + 1, c :: rest =>
    if pat ≠ [] ∧ pat.isPrefixOf (c :: rest) then
      rep ++ replaceChars pat rep fuel ((c :: rest).drop pat.length)
    else c :: replaceChars pat rep fuel rest

def replaceStr (s pat rep : String) : String :=
  String.mk (replaceChars pat.data rep.data s.data.length s.data)

namespace LanguageContextModel

/-- The four stutter corrections installed by
`LanguageContextModel::new` (`context_processor.rs` lines 326-339), as
an association list in insertion order. -/
def common_corrections : List (String × String) :=
  [("那个那个", "那个"), ("就是就是", "就是"),
   ("然后然后", "然后"), ("这个这个", "这个")]

/-- The consecutive-duplicate-word squash inside
`apply_basic_grammar_fixes` (`context_processor.rs` lines 377-387);
short words (≤ 2 bytes) are always kept. -/
def grammar_dedupe : List String → String → List String
  | [], _ => []
  | w :: rest, last_word =>
    if w ≠ last_word ∨ w.utf8ByteSize ≤ 2 then
      w :: grammar_dedupe rest w
    else grammar_dedupe rest last_word

/-- `apply_basic_grammar_fixes` (`context_processor.rs`
lines 373-397). -/
def apply_basic_grammar_fixes (text : String) : String :=
  let words := splitWords text
  let fixed_words := grammar_dedupe words ""
  let result := ConversationBuffer.joinSpace fixed_words
  let result := replaceStr result " ," ","
  let result := replaceStr result " ." "."
  let result := replaceStr result " !" "!"
  replaceStr result " ?" "?"

/-- `LanguageContextModel::correct_text` (`context_processor.rs`
lines 341-361): the stutter replacements, the (identity) context and
speaker-specific rules, then the grammar fixes.  `apply_context_rules`
and `apply_speaker_specific_corrections` are literal identity functions
in the source (TODO stubs returning their input). -/
def correct_text (text _context : String)
    (_speaker_info : Option String) : String :=
  let corrected := common_corrections.foldl
    (fun acc kv => replaceStr acc kv.1 kv.2) text
  apply_basic_grammar_fixes corrected

end LanguageContextModel

/-- `ContextAwareProcessor` state from `context_processor.rs`
(lines 400-405); the `LanguageContextModel` holds no mutable state and
lives in the `LanguageContextModel` namespace. -/
structure ContextAwareProcessor where
  conversation_buffer : ConversationBuffer
  speaker_model : SpeakerModel
deriving Repr, DecidableEq

namespace ContextAwareProcessor

/-- `ContextAwareProcessor::new` (`context_processor.rs`
lines 408-414): 100-segment, 5-minute conversation window. -/
def new : ContextAwareProcessor :=
  ⟨⟨[], 100, 300000⟩, SpeakerModel.new⟩

/-- `ContextAwareProcessor::process_with_context` (`context_processor.rs`
lines 416-455): speaker identification, contextual correction, history
update, and the returned result with corrected text, speaker id, and the
10% confidence boost applied exactly when the incoming confidence is
below 0.5. -/
def process_with_context (cap : ContextAwareProcessor)
    (result : TranscriptResult) (audio : List ℚ) (now : ℕ) :
    ContextAwareProcessor × TranscriptResult :=
  let identified := cap.speaker_model.identify_speaker audio result.text now
  let context := cap.conversation_buffer.get_recent_context 100
  let corrected_text := LanguageContextModel.correct_text result.text
    context identified.2
  let segment : ConversationSegment :=
    ⟨corrected_text, identified.2, result.timestamp, result.confidence,
      result.segment_id⟩
  let buffer := cap.conversation_buffer.add_segment segment now
  (⟨buffer, identified.1⟩,
    { result with
        text := corrected_text,
        speaker := identified.2,
        confidence :=
          if result.confidence < 1/2 then result.confidence * (11/10)
          else result.confidence })

end ContextAwareProcessor

end ContextProc

/-- C9: the confidence returned by `process_with_context` is the input
confidence boosted by 10% exactly when the input confidence is below
0.5, and unchanged otherwise (the contextual correction pass is
infallible in the source, so "correction succeeded" always holds). -/
theorem c9_confidence_nudge (cap : ContextProc.ContextAwareProcessor)
    (result : TranscriptResult) (audio : List ℚ) (now : ℕ) :
    ((cap.process_with_context result audio now).2).confidence =
      if result.confidence < 1/2 then result.confidence * (11/10)
      else result.confidence := rfl

end Steno
